import Mathlib

/-!
Verification of the resolution engine of subjectify.py (a tool that resolves
bibliographic identifiers to DDC/LCC classification codes via the OCLC
Classify2 HTTP API).  The program is Python 2; we shallowly embed its pure
logic: XML payloads become explicit element trees, the HTTP layer becomes an
oracle from request URLs to outcomes, Python exceptions become an explicit
error monad, and the module-level cache together with the call counter
becomes an explicit World state threaded through process_row.
-/

namespace Subjectify

/-- Element of a parsed XML document.  Tags are stored with the namespace
already resolved (the source always queries with the single constant
namespace mapping, so local names suffice). -/
inductive XElem where
  | mk (tag : String) (attrib : List (String × String)) (children : List XElem)

/-- Tag of an element. -/
def XElem.tag : XElem → String
  | .mk t _ _ => t

/-- Attribute list of an element (models the attrib dictionary). -/
def XElem.attrib : XElem → List (String × String)
  | .mk _ a _ => a

/-- Child list of an element. -/
def XElem.children : XElem → List XElem
  | .mk _ _ c => c

/-- Lookup in an attribute dictionary; none models a KeyError condition. -/
def alookup : List (String × String) → String → Option String
  | [], _ => none
  | (k, v) :: rest, key => if k = key then some v else alookup rest key

/-- Python exceptions that the embedded functions can raise. -/
inductive PyErr where
  | keyError
  | valueError
  | attributeError
  | typeError
deriving DecidableEq

/-- Value stored in a row field or a cache slot: the Python values None or a
string. -/
inductive RVal where
  | noneV
  | strV (s : String)
deriving DecidableEq

/-- Search data passed to oclc_search: a single Python value (string or None
taken from a row field) or the two-value tuple built for bibliographic
searches.  process_row only ever builds two-value tuples, so the pair
constructor carries exactly two components. -/
inductive SData where
  | s (v : RVal)
  | pair (t a : RVal)
deriving DecidableEq

/-- Python str() of a row value, as used by percent formatting ("None" for
None). -/
def pyStr : RVal → String
  | .noneV => "None"
  | .strV s => s

/-- Values that flow into get_tree: a string (represented by its XML parse
result: none when ET.fromstring would fail), an element, or the Python
values None and False returned by oclc_search. -/
inductive XmlData where
  | xstr (parse : Option XElem)
  | xelem (e : XElem)
  | xnone
  | xfalse

/-- Digits of a decimal literal to a number; none when empty or when any
character is not a digit. -/
def digitsToNat : List Char → Option Nat
  | [] => none
  | cs =>
    if cs.all Char.isDigit then
      some (cs.foldl (fun n c => 10 * n + (c.toNat - '0'.toNat)) 0)
    else none

/-- Whitespace characters stripped by Python int() before parsing. -/
def isSpaceChar (c : Char) : Bool :=
  c = ' ' ∨ c = '\t' ∨ c = '\n' ∨ c = '\r' ∨ c = '\x0b' ∨ c = '\x0c'

/-- Python int() applied to a string: surrounding whitespace is stripped, an
optional sign is allowed, the rest must be decimal digits; none models the
ValueError condition. -/
def pyInt (s : String) : Option Int :=
  match ((s.data.dropWhile isSpaceChar).reverse.dropWhile isSpaceChar).reverse with
  | '-' :: rest => (digitsToNat rest).map (fun n => -(n : Int))
  | '+' :: rest => (digitsToNat rest).map (fun n => (n : Int))
  | cs => (digitsToNat cs).map (fun n => (n : Int))

/-- All children of the given elements carrying the given tag, in document
order (one selection step of an ElementTree path). -/
def selectTag : List XElem → String → List XElem
  | [], _ => []
  | e :: rest, tag => e.children.filter (fun c => c.tag = tag) ++ selectTag rest tag

/-- ElementTree find for a chain of tag steps: first element matching the
path, in document order. -/
def findPath (root : XElem) (tags : List String) : Option XElem :=
  (tags.foldl selectTag [root]).head?

/-- Last child with the given tag (used by the position-0 predicate below). -/
def lastTagChild (parent : XElem) (tag : String) : Option XElem :=
  (parent.children.filter (fun c => c.tag = tag)).getLast?

/-- Embeds tree.find of the path classify:works/classify:work[0] under the
Python 2.7 ElementTree engine: a numeric predicate [n] becomes the sibling
index n-1, so [0] becomes index -1 and the predicate keeps exactly the works
that are the LAST work child of their parent; find then returns the first
survivor in document order (none when no work exists). -/
def work0Select (root : XElem) : Option XElem :=
  ((selectTag [root] "works").filterMap (fun p => lastTagChild p "work")).head?

/-- Embeds get_tree: a string is parsed (exceptions swallowed to None), an
element is returned as-is, anything else (None, False) gives None. -/
def get_tree : XmlData → Option XElem
  | .xstr parse => parse
  | .xelem e => some e
  | .xnone => none
  | .xfalse => none

/-- Embeds extract_response: parse the record, read the code attribute of the
first response child as an integer.  Returns none when the tree or the
response element is missing; raises KeyError when the response element has no
code attribute and ValueError when the attribute is not an integer literal
(the source applies int() to the attribute with no handler). -/
def extract_response (record_xml : XmlData) : Except PyErr (Option Int) :=
  match get_tree record_xml with
  | none => .ok none
  | some tree =>
    match findPath tree ["response"] with
    | none => .ok none
    | some rc =>
      match alookup rc.attrib "code" with
      | none => .error .keyError
      | some s =>
        match pyInt s with
        | none => .error .valueError
        | some n => .ok (some n)

/-- Embeds extract_ids: re-parse the record and re-check the response code;
for a single-work code (0 or 2) read the most popular DDC and LCC
recommendation attributes, each falling back to the empty string when its
element or attribute is missing (the source wraps each read in a bare
except).  Any exception of the inner extract_response propagates. -/
def extract_ids (record_xml : XmlData) : Except PyErr (Option (String × String)) :=
  match get_tree record_xml with
  | none => .ok none
  | some tree =>
    match extract_response (.xelem tree) with
    | .error e => .error e
    | .ok code =>
      if code = some 0 ∨ code = some 2 then
        let ddc :=
          match findPath tree ["recommendations", "ddc", "mostPopular"] with
          | none => ""
          | some e =>
            match alookup e.attrib "nsfa" with
            | none => ""
            | some v => v
        let lcc :=
          match findPath tree ["recommendations", "lcc", "mostPopular"] with
          | none => ""
          | some e =>
            match alookup e.attrib "nsfa" with
            | none => ""
            | some v => v
        .ok (some (ddc, lcc))
      else .ok none

/-- Embeds resolve_multiple: re-parse and re-check the response code; for a
multi-work code (4) evaluate the work[0] find (which under the Python 2.7
path engine yields the last listed work, see work0Select) and read its wi
attribute.  The source guards nothing here: a missing work raises
AttributeError (attrib read on None) and a work without a wi attribute
raises KeyError. -/
def resolve_multiple (record_xml : XmlData) : Except PyErr (Option String) :=
  match get_tree record_xml with
  | none => .ok none
  | some tree =>
    match extract_response (.xelem tree) with
    | .error e => .error e
    | .ok code =>
      if code = some 4 then
        match work0Select tree with
        | none => .error .attributeError
        | some work =>
          match alookup work.attrib "wi" with
          | none => .error .keyError
          | some wiv => .ok (some wiv)
      else .ok none

/-- Outcome of one requests.get call: a response with a status code and a
body (represented by the XML parse result of its content: none when
ET.fromstring would fail on it), or a raised connection/network error. -/
inductive HttpOutcome where
  | response (status_code : Nat) (body : Option XElem)
  | netFail

/-- Embeds lines 139-146 of oclc_search: a 200 response yields its content,
any other status yields None, and a raised request error yields None. -/
def httpResult : HttpOutcome → XmlData
  | .response c body => if c = 200 then .xstr body else .xnone
  | .netFail => .xnone

/-- OCLC Classify API URL (module constant of the source). -/
def endpoint_url : String := "http://classify.oclc.org/classify2/Classify"

/-- Fixed query parameters (module constant of the source). -/
def base_querystring : String := "?summary=true&maxRecs=1"

/-- Embeds the query-forming half of oclc_search (lines 117-137): the request
URL, or none when the source would return False (invalid searchtype, or data
of the wrong Python type).  Note that the source unpacks the bibliographic
tuple as (author, title) although process_row builds it as (title, author);
we reproduce that unpacking as written. -/
def buildRequest (searchtype : String) (data : SData) (exact : Bool) : Option String :=
  if searchtype = "isbn" ∨ searchtype = "issn" ∨ searchtype = "wi" ∨ searchtype = "title" then
    match data with
    | .s (.strV s) =>
      let s := if searchtype = "title" && exact then "\"" ++ s ++ "\"" else s
      some (endpoint_url ++ base_querystring ++ "&" ++ searchtype ++ "=" ++ s)
    | _ => none
  else if searchtype = "bib" then
    match data with
    | .pair t a =>
      let author := t
      let title := a
      some (endpoint_url ++ base_querystring ++ "&" ++
        (if exact then "author=\"" ++ pyStr author ++ "\"&title=\"" ++ pyStr title ++ "\""
         else "author=" ++ pyStr author ++ "&title=" ++ pyStr title))
    | _ => none
  else none

/-- Key of the module-level cache searches_seen: the (search_type, data)
tuple. -/
abbrev CacheKey := String × SData

/-- Value of one cache entry: the ddc and lcc slots of the stored dictionary
(each Python None or a string). -/
abbrev CEntry := RVal × RVal

/-- The searches_seen cache as an association list; lookups take the first
binding, and since process_row never stores a key twice (proved below),
prepending is an exact model of dictionary assignment. -/
abbrev Cache := List (CacheKey × CEntry)

/-- Dictionary lookup in the cache. -/
def cacheFind : Cache → CacheKey → Option CEntry
  | [], _ => none
  | (k, v) :: rest, key => if k = key then some v else cacheFind rest key

/-- Dictionary assignment in the cache. -/
def cacheSet (c : Cache) (k : CacheKey) (v : CEntry) : Cache := (k, v) :: c

/-- State threaded through one resolution: the cache, the network (an oracle
from request URLs to HTTP outcomes, modelling the remote service), and the
number of network calls performed so far. -/
structure World where
  cache : Cache
  net : String → HttpOutcome
  calls : Nat

/-- Embeds oclc_search as a whole: form the request, and only when it is
valid perform one network round trip (counted) and classify its outcome. -/
def oclc_search (searchtype : String) (data : SData) (exact : Bool) (w : World) :
    XmlData × World :=
  match buildRequest searchtype data exact with
  | none => (.xfalse, w)
  | some url => (httpResult (w.net url), { w with calls := w.calls + 1 })

/-- A CSV row in its dictionary form: an ordered mapping from field names to
values.  The source also accepts positional-list rows through the same
control flow; the claims concern the mapping form, which we embed. -/
abbrev Row := List (String × RVal)

/-- Dictionary lookup in a row; none models the KeyError condition. -/
def rowGet : Row → String → Option RVal
  | [], _ => none
  | (k, v) :: rest, key => if k = key then some v else rowGet rest key

/-- Dictionary assignment in a row: update in place when the key exists,
append otherwise (Python dictionary semantics). -/
def rowSet : Row → String → RVal → Row
  | [], k, v => [(k, v)]
  | (k1, v1) :: rest, k, v =>
    if k1 = k then (k, v) :: rest else (k1, v1) :: rowSet rest k v

/-- Row lookup defaulting to None; used only under guards that already
performed the same lookup successfully. -/
def rowGetV (row : Row) (name : String) : RVal := (rowGet row name).getD .noneV

/-- Python truthiness of row values compared against the empty string:
row field value is different from the empty string (None compares unequal to
the empty string). -/
def rvalNonEmpty : RVal → Bool
  | .noneV => true
  | .strV s => s ≠ ""

/-- The column configuration: the field names holding ISBN, ISSN, author and
title (entries 0-3 of the columns list of the source); none models a column
configured as not applicable. -/
structure Columns where
  isbn : Option String
  issn : Option String
  author : Option String
  title : Option String

/-- Evaluates one guard of the key selection (for instance line 235):
the column is configured (truthy name) and the row holds a non-empty value
there.  Raises KeyError when the row lacks the field. -/
def colHasData (row : Row) (c : Option String) : Except PyErr Bool :=
  match c with
  | none => .ok false
  | some name =>
    if name = "" then .ok false
    else
      match rowGet row name with
      | none => .error .keyError
      | some v => .ok (rvalNonEmpty v)

/-- Embeds the skip loop of process_row (lines 222-229): every configured
skip column is inspected (KeyError when missing from the row) and the skip
flag is the disjunction of their non-emptiness. -/
def skipLoop (row : Row) : List String → Bool → Except PyErr Bool
  | [], acc => .ok acc
  | c :: rest, acc =>
    match rowGet row c with
    | none => .error .keyError
    | some v => skipLoop row rest (acc || rvalNonEmpty v)

/-- Embeds the skip check: nothing happens when the skip list is None or
empty (both falsy in the source condition). -/
def skipCheck (row : Row) (skip_columns : Option (List String)) : Except PyErr Bool :=
  match skip_columns with
  | none => .ok false
  | some [] => .ok false
  | some cols => skipLoop row cols false

/-- Embeds the title/author part of key selection (lines 235-241): with
title data present, author data selects a bibliographic pair (title, author),
otherwise a plain title search. -/
def titleChoice (row : Row) (c : Columns) : Except PyErr (Option (String × SData)) :=
  match colHasData row c.title with
  | .error e => .error e
  | .ok false => .ok none
  | .ok true =>
    match colHasData row c.author with
    | .error e => .error e
    | .ok true =>
      .ok (some ("bib", SData.pair (rowGetV row (c.title.getD ""))
                                   (rowGetV row (c.author.getD ""))))
    | .ok false => .ok (some ("title", SData.s (rowGetV row (c.title.getD ""))))

/-- Embeds key selection (lines 231-247): starting from the title/author
choice, ISSN data overrides it and ISBN data overrides everything. -/
def selectKey (row : Row) (c : Columns) : Except PyErr (Option (String × SData)) :=
  match titleChoice row c with
  | .error e => .error e
  | .ok s1 =>
    match colHasData row c.issn with
    | .error e => .error e
    | .ok iHas =>
      let s2 := if iHas then some ("issn", SData.s (rowGetV row (c.issn.getD ""))) else s1
      match colHasData row c.isbn with
      | .error e => .error e
      | .ok bHas =>
        .ok (if bHas then some ("isbn", SData.s (rowGetV row (c.isbn.getD ""))) else s2)

/-- Default of the module flag exact_searches. -/
def exact_searches : Bool := true

/-- Embeds process_row for dictionary rows, with the module cache and query
counting made explicit in the World.  Follows the source branch for branch:
skip check, key selection, cache lookup, first query with its status split
(failure at None or at least 100, single work at 0 or 2, multi work at 4,
and the uncovered fall-through that returns Python None), and the multi-work
second query.  Unpacking a None result of extract_ids raises TypeError. -/
def process_row (row : Row) (columns : Columns) (skip_columns : Option (List String))
    (exact : Bool) (w : World) : Except PyErr (Option (Row × Bool) × World) :=
  match skipCheck row skip_columns with
  | .error e => .error e
  | .ok true => .ok (some (row, false), w)
  | .ok false =>
    match selectKey row columns with
    | .error e => .error e
    | .ok none => .ok (some (row, false), w)
    | .ok (some key) =>
      match cacheFind w.cache key with
      | some entry =>
        .ok (some (rowSet (rowSet row "ddc" entry.1) "lcc" entry.2, false), w)
      | none =>
        -- The source binds the first query result once; oclc_search is a
        -- pure function of the world, so the repeated applications below
        -- all denote that single shared result.
        match extract_response (oclc_search key.1 key.2 exact w).1 with
        | .error e => .error e
        | .ok none =>
          .ok (some (row, true),
               { (oclc_search key.1 key.2 exact w).2 with
                 cache := cacheSet (oclc_search key.1 key.2 exact w).2.cache key
                            (.noneV, .noneV) })
        | .ok (some n) =>
          if n ≥ 100 then
            .ok (some (row, true),
                 { (oclc_search key.1 key.2 exact w).2 with
                   cache := cacheSet (oclc_search key.1 key.2 exact w).2.cache key
                              (.noneV, .noneV) })
          else if n = 0 ∨ n = 2 then
            match extract_ids (oclc_search key.1 key.2 exact w).1 with
            | .error e => .error e
            | .ok none => .error .typeError
            | .ok (some (d, l)) =>
              .ok (some (rowSet (rowSet row "ddc" (.strV d)) "lcc" (.strV l), true),
                   { (oclc_search key.1 key.2 exact w).2 with
                     cache := cacheSet (oclc_search key.1 key.2 exact w).2.cache key
                                (.strV d, .strV l) })
          else if n = 4 then
            match resolve_multiple (oclc_search key.1 key.2 exact w).1 with
            | .error e => .error e
            | .ok (some wiv) =>
              if wiv ≠ "" then
                match extract_response
                    (oclc_search "wi" (.s (.strV wiv)) true
                      (oclc_search key.1 key.2 exact w).2).1 with
                | .error e => .error e
                | .ok pstatus =>
                  if pstatus = some 0 ∨ pstatus = some 2 then
                    match extract_ids
                        (oclc_search "wi" (.s (.strV wiv)) true
                          (oclc_search key.1 key.2 exact w).2).1 with
                    | .error e => .error e
                    | .ok none => .error .typeError
                    | .ok (some (d, l)) =>
                      .ok (some (rowSet (rowSet row "ddc" (.strV d)) "lcc" (.strV l), true),
                           { (oclc_search "wi" (.s (.strV wiv)) true
                               (oclc_search key.1 key.2 exact w).2).2 with
                             cache := cacheSet
                               (oclc_search "wi" (.s (.strV wiv)) true
                                 (oclc_search key.1 key.2 exact w).2).2.cache key
                               (.strV d, .strV l) })
                  else
                    .ok (some (row, true),
                         { (oclc_search "wi" (.s (.strV wiv)) true
                             (oclc_search key.1 key.2 exact w).2).2 with
                           cache := cacheSet
                             (oclc_search "wi" (.s (.strV wiv)) true
                               (oclc_search key.1 key.2 exact w).2).2.cache key
                             (.noneV, .noneV) })
              else
                .ok (some (row, true),
                     { (oclc_search key.1 key.2 exact w).2 with
                       cache := cacheSet (oclc_search key.1 key.2 exact w).2.cache key
                                  (.noneV, .noneV) })
            | .ok none =>
              .ok (some (row, true),
                   { (oclc_search key.1 key.2 exact w).2 with
                     cache := cacheSet (oclc_search key.1 key.2 exact w).2.cache key
                                (.noneV, .noneV) })
          else .ok (none, (oclc_search key.1 key.2 exact w).2)

/-! Concrete payloads, rows and service oracles used to evaluate the
behaviour of the engine at specific inputs. -/

/-- Response element carrying the given code attribute. -/
def respElem (code : String) : XElem := .mk "response" [("code", code)] []

/-- Single-work detail payload (code 2) recommending DDC 813 and no LCC. -/
def treeSingle813 : XElem :=
  .mk "classify" [] [respElem "2",
    .mk "recommendations" [] [.mk "ddc" [] [.mk "mostPopular" [("nsfa", "813")] []]]]

/-- Multi-work payload (code 4) listing candidate works 111 and 222, in that
order. -/
def treeMulti2 : XElem :=
  .mk "classify" [] [respElem "4",
    .mk "works" [] [.mk "work" [("wi", "111")] [], .mk "work" [("wi", "222")] []]]

/-- Not-found payload (code 102). -/
def treeNotFound : XElem := .mk "classify" [] [respElem "102"]

/-- Structurally unexpected payload: a response element with no code
attribute. -/
def treeCodeless : XElem := .mk "classify" [] [.mk "response" [] []]

/-- Payload with the undocumented status code 1. -/
def treeStatusOne : XElem := .mk "classify" [] [respElem "1"]

/-- Multi-work payload with an empty candidate list. -/
def treeMultiNoWorks : XElem := .mk "classify" [] [respElem "4"]

/-- Parseable payload with no response element at all. -/
def treeNoResponse : XElem := .mk "classify" [] []

/-- Request URL for a given query fragment, as oclc_search builds it. -/
def urlFor (q : String) : String := endpoint_url ++ base_querystring ++ "&" ++ q

/-- The default column configuration (field names isbn, issn, author,
title). -/
def demoColumns : Columns := ⟨some "isbn", some "issn", some "author", some "title"⟩

/-- Row carrying only an ISBN. -/
def rowIsbn : Row :=
  [("isbn", .strV "9781"), ("issn", .strV ""), ("author", .strV ""), ("title", .strV "")]

/-- Row carrying only an ISSN. -/
def rowIssn : Row :=
  [("isbn", .strV ""), ("issn", .strV "1234-5678"), ("author", .strV ""), ("title", .strV "")]

/-- Row carrying an ISBN that the demo service answers with status 1. -/
def rowIsbn555 : Row :=
  [("isbn", .strV "555"), ("issn", .strV ""), ("author", .strV ""), ("title", .strV "")]

/-- Service oracle for the multi-work scenario: the ISBN search yields the
two-candidate multi-work payload, the FIRST candidate (111) resolves to the
DDC-813 single-work payload, the LAST candidate (222) to not-found. -/
def netFirstBad : String → HttpOutcome := fun u =>
  if u = urlFor "isbn=9781" then .response 200 (some treeMulti2)
  else if u = urlFor "wi=111" then .response 200 (some treeSingle813)
  else if u = urlFor "wi=222" then .response 200 (some treeNotFound)
  else .netFail

/-- Service oracle whose LAST candidate (222) resolves to the DDC-813
single-work payload. -/
def netLastGood : String → HttpOutcome := fun u =>
  if u = urlFor "isbn=9781" then .response 200 (some treeMulti2)
  else if u = urlFor "wi=222" then .response 200 (some treeSingle813)
  else .netFail

/-- Service oracle answering the ISSN search with not-found (102). -/
def netNotFound : String → HttpOutcome := fun u =>
  if u = urlFor "issn=1234-5678" then .response 200 (some treeNotFound)
  else .netFail

/-- Service oracle answering the ISBN search with the undocumented status
1. -/
def netStatusOne : String → HttpOutcome := fun u =>
  if u = urlFor "isbn=555" then .response 200 (some treeStatusOne)
  else .netFail

/-- Service oracle always answering with HTTP status 404. -/
def netNon200 : String → HttpOutcome := fun _ => .response 404 (some treeSingle813)

/-- Service oracle whose every request raises a connection error. -/
def netDown : String → HttpOutcome := fun _ => .netFail

/-- Fresh world over the multi-work oracle. -/
def worldC1 : World := ⟨[], netFirstBad, 0⟩

/-- World after the multi-work resolution: the nil entry is cached under the
original isbn key and two calls were made. -/
def worldCacheNil : World :=
  ⟨[(("isbn", .s (.strV "9781")), (.noneV, .noneV))], netFirstBad, 2⟩

/-- Fresh world over the last-candidate-good oracle. -/
def worldC1W : World := ⟨[], netLastGood, 0⟩

/-- Fresh world over the not-found oracle. -/
def worldC4 : World := ⟨[], netNotFound, 0⟩

/-- World after the failed ISSN resolution: nil entry cached, one call
made. -/
def worldC4After : World :=
  ⟨[(("issn", .s (.strV "1234-5678")), (.noneV, .noneV))], netNotFound, 1⟩

/-- Fresh world over the status-1 oracle. -/
def worldC9 : World := ⟨[], netStatusOne, 0⟩

/-- World holding a previously cached successful result for the isbn key. -/
def worldC5 : World :=
  ⟨[(("isbn", .s (.strV "9781")), (.strV "813", .strV "QA76"))], netFirstBad, 1⟩

/-- The isbn row after a cache hit on a nil entry: ddc and lcc are set to
None. -/
def rowIsbnNulls : Row := rowIsbn ++ [("ddc", RVal.noneV), ("lcc", RVal.noneV)]

/-- The issn row after a cache hit on a nil entry. -/
def rowIssnNulls : Row := rowIssn ++ [("ddc", RVal.noneV), ("lcc", RVal.noneV)]

/-- Row whose done field is already filled, used with the skip list. -/
def rowSkip : Row :=
  [("isbn", .strV "9781"), ("issn", .strV ""), ("author", .strV ""),
   ("title", .strV ""), ("done", .strV "x")]

/-- Row carrying the ISBN of the single-match scenario. -/
def rowIsbnS : Row :=
  [("isbn", .strV "9780135957059"), ("issn", .strV ""), ("author", .strV ""),
   ("title", .strV "")]

/-- Service oracle answering the single-match ISBN search with the DDC-813
single-work payload. -/
def netSingle : String → HttpOutcome := fun u =>
  if u = urlFor "isbn=9780135957059" then .response 200 (some treeSingle813)
  else .netFail

/-- Fresh world over the single-match oracle. -/
def worldSingle : World := ⟨[], netSingle, 0⟩

/-- Row with every key field populated. -/
def rowAll : Row :=
  [("isbn", .strV "9781"), ("issn", .strV "12"), ("author", .strV "A"), ("title", .strV "T")]

/-- Row with every key field except ISBN populated. -/
def rowNoIsbn : Row :=
  [("isbn", .strV ""), ("issn", .strV "12"), ("author", .strV "A"), ("title", .strV "T")]

/-- Row with only title and author populated. -/
def rowBib : Row :=
  [("isbn", .strV ""), ("issn", .strV ""), ("author", .strV "A"), ("title", .strV "T")]

/-- Row with only a title populated. -/
def rowTitle : Row :=
  [("isbn", .strV ""), ("issn", .strV ""), ("author", .strV ""), ("title", .strV "T")]

/-- Row with every key field empty. -/
def rowEmpty : Row :=
  [("isbn", .strV ""), ("issn", .strV ""), ("author", .strV ""), ("title", .strV "")]

/-- Predicate stating how one resolution may change the world: the network
oracle is untouched, the call counter grows by at most two, and the cache
either stays unchanged or gains exactly one binding for a previously
uncached key. -/
def WorldEvolves (w : World) : Except PyErr (Option (Row × Bool) × World) → Prop
  | .error _ => True
  | .ok (_, w1) =>
    w1.net = w.net ∧ w.calls ≤ w1.calls ∧ w1.calls ≤ w.calls + 2 ∧
      (w1.cache = w.cache ∨
        ∃ k v, w1.cache = cacheSet w.cache k v ∧ cacheFind w.cache k = none)

/-! Helper lemmas about the engine, shared by the claim theorems below. -/

theorem oclc_search_net (st : String) (d : SData) (ex : Bool) (w : World) :
    (oclc_search st d ex w).2.net = w.net := by
  unfold oclc_search; split <;> rfl

theorem oclc_search_cache (st : String) (d : SData) (ex : Bool) (w : World) :
    (oclc_search st d ex w).2.cache = w.cache := by
  unfold oclc_search; split <;> rfl

theorem oclc_search_calls (st : String) (d : SData) (ex : Bool) (w : World) :
    w.calls ≤ (oclc_search st d ex w).2.calls ∧
      (oclc_search st d ex w).2.calls ≤ w.calls + 1 := by
  unfold oclc_search; split <;> simp

theorem cacheFind_cacheSet (c : Cache) (k k0 : CacheKey) (v : CEntry) :
    cacheFind (cacheSet c k v) k0 = if k = k0 then some v else cacheFind c k0 := rfl

/-- Re-parsing an already parsed record gives the same response code: the
inner extract_response call of extract_ids and resolve_multiple agrees with
the outer one. -/
theorem extract_response_of_tree (p : XmlData) (t : XElem) (h : get_tree p = some t) :
    extract_response p = extract_response (.xelem t) := by
  cases p <;> simp [get_tree] at h <;> simp [extract_response, get_tree, h]

/-- Cache hit path of process_row: the cached components are written into
the row, no query is made and the world is untouched. -/
theorem processRow_hit (row : Row) (cols : Columns) (sc : Option (List String))
    (ex : Bool) (w : World) (key : CacheKey) (e : CEntry)
    (hs : skipCheck row sc = .ok false)
    (hk : selectKey row cols = .ok (some key))
    (hc : cacheFind w.cache key = some e) :
    process_row row cols sc ex w =
      .ok (some (rowSet (rowSet row "ddc" e.1) "lcc" e.2, false), w) := by
  simp only [process_row, hs, hk, hc]

/-- Unparseable first response: the nil entry is cached under the search key
and the row is returned unchanged with query_made true. -/
theorem processRow_statusNone (row : Row) (cols : Columns) (sc : Option (List String))
    (ex : Bool) (w : World) (key : CacheKey)
    (hs : skipCheck row sc = .ok false)
    (hk : selectKey row cols = .ok (some key))
    (hc : cacheFind w.cache key = none)
    (hr : extract_response (oclc_search key.1 key.2 ex w).1 = .ok none) :
    process_row row cols sc ex w =
      .ok (some (row, true),
        { (oclc_search key.1 key.2 ex w).2 with
          cache := cacheSet (oclc_search key.1 key.2 ex w).2.cache key (.noneV, .noneV) }) := by
  simp only [process_row, hs, hk, hc, hr]

/-- Failure status (at least 100) on the first response: the nil entry is
cached under the search key and the row is returned unchanged with
query_made true. -/
theorem processRow_statusFail (row : Row) (cols : Columns) (sc : Option (List String))
    (ex : Bool) (w : World) (key : CacheKey) (n : Int)
    (hs : skipCheck row sc = .ok false)
    (hk : selectKey row cols = .ok (some key))
    (hc : cacheFind w.cache key = none)
    (hr : extract_response (oclc_search key.1 key.2 ex w).1 = .ok (some n))
    (hn : n ≥ 100) :
    process_row row cols sc ex w =
      .ok (some (row, true),
        { (oclc_search key.1 key.2 ex w).2 with
          cache := cacheSet (oclc_search key.1 key.2 ex w).2.cache key (.noneV, .noneV) }) := by
  simp only [process_row, hs, hk, hc, hr, if_pos hn]

/-- Single-work status on the first response: the extracted components are
written into the row and cached under the search key. -/
theorem processRow_single (row : Row) (cols : Columns) (sc : Option (List String))
    (ex : Bool) (w : World) (key : CacheKey) (n : Int) (d l : String)
    (hs : skipCheck row sc = .ok false)
    (hk : selectKey row cols = .ok (some key))
    (hc : cacheFind w.cache key = none)
    (hr : extract_response (oclc_search key.1 key.2 ex w).1 = .ok (some n))
    (h02 : n = 0 ∨ n = 2)
    (hids : extract_ids (oclc_search key.1 key.2 ex w).1 = .ok (some (d, l))) :
    process_row row cols sc ex w =
      .ok (some (rowSet (rowSet row "ddc" (.strV d)) "lcc" (.strV l), true),
        { (oclc_search key.1 key.2 ex w).2 with
          cache := cacheSet (oclc_search key.1 key.2 ex w).2.cache key (.strV d, .strV l) }) := by
  have hn : ¬ n ≥ 100 := by rcases h02 with h | h <;> omega
  simp only [process_row, hs, hk, hc, hr, if_neg hn, if_pos h02, hids]

/-- Undocumented status below 100 (not 0, 2 or 4) on the first response:
process_row falls through every branch and returns the Python None value,
with no cache write and the single network call recorded. -/
theorem processRow_fallthrough (row : Row) (cols : Columns) (sc : Option (List String))
    (ex : Bool) (w : World) (key : CacheKey) (n : Int)
    (hs : skipCheck row sc = .ok false)
    (hk : selectKey row cols = .ok (some key))
    (hc : cacheFind w.cache key = none)
    (hr : extract_response (oclc_search key.1 key.2 ex w).1 = .ok (some n))
    (hn : n < 100) (h0 : n ≠ 0) (h2 : n ≠ 2) (h4 : n ≠ 4) :
    process_row row cols sc ex w = .ok (none, (oclc_search key.1 key.2 ex w).2) := by
  have hge : ¬ n ≥ 100 := by omega
  have h02 : ¬ (n = 0 ∨ n = 2) := by tauto
  simp only [process_row, hs, hk, hc, hr, if_neg hge, if_neg h02, if_neg h4]

/-- Multi-work path with a resolving second query: the components extracted
from the parent record are written into the row and cached under the
original key. -/
theorem processRow_multi (row : Row) (cols : Columns) (sc : Option (List String))
    (ex : Bool) (w : World) (key : CacheKey) (wiv : String) (pst : Option Int) (d l : String)
    (hs : skipCheck row sc = .ok false)
    (hk : selectKey row cols = .ok (some key))
    (hc : cacheFind w.cache key = none)
    (hr : extract_response (oclc_search key.1 key.2 ex w).1 = .ok (some 4))
    (hrm : resolve_multiple (oclc_search key.1 key.2 ex w).1 = .ok (some wiv))
    (hwiv : wiv ≠ "")
    (hpr : extract_response
      (oclc_search "wi" (.s (.strV wiv)) true (oclc_search key.1 key.2 ex w).2).1 = .ok pst)
    (hp02 : pst = some 0 ∨ pst = some 2)
    (hpids : extract_ids
      (oclc_search "wi" (.s (.strV wiv)) true (oclc_search key.1 key.2 ex w).2).1 =
        .ok (some (d, l))) :
    process_row row cols sc ex w =
      .ok (some (rowSet (rowSet row "ddc" (.strV d)) "lcc" (.strV l), true),
        { (oclc_search "wi" (.s (.strV wiv)) true (oclc_search key.1 key.2 ex w).2).2 with
          cache := cacheSet
            (oclc_search "wi" (.s (.strV wiv)) true (oclc_search key.1 key.2 ex w).2).2.cache
            key (.strV d, .strV l) }) := by
  have hge : ¬ (4 : Int) ≥ 100 := by omega
  have h02 : ¬ ((4 : Int) = 0 ∨ (4 : Int) = 2) := by omega
  simp only [process_row, hs, hk, hc, hr, if_neg hge, if_neg h02, if_pos rfl, hrm,
    if_pos hwiv, hpr, if_pos hp02, hpids, if_true]

/-- Every resolution evolves the world as described by WorldEvolves; in
particular a key already cached is never written again, and at most two
network calls happen per resolution. -/
theorem processRow_evolves (row : Row) (cols : Columns) (sc : Option (List String))
    (ex : Bool) (w : World) :
    WorldEvolves w (process_row row cols sc ex w) := by
  unfold process_row
  split
  · trivial
  · exact ⟨rfl, le_refl _, by omega, Or.inl rfl⟩
  · split
    · trivial
    · exact ⟨rfl, le_refl _, by omega, Or.inl rfl⟩
    · next key _hk =>
      split
      · exact ⟨rfl, le_refl _, by omega, Or.inl rfl⟩
      · next hmiss =>
        have h1 := oclc_search_calls key.1 key.2 ex w
        have hc1 := oclc_search_cache key.1 key.2 ex w
        have hn1 := oclc_search_net key.1 key.2 ex w
        split
        · trivial
        · exact ⟨hn1, h1.1, le_trans h1.2 (Nat.le_succ _),
            Or.inr ⟨key, (.noneV, .noneV), by rw [← hc1], hmiss⟩⟩
        · split
          · exact ⟨hn1, h1.1, le_trans h1.2 (Nat.le_succ _),
              Or.inr ⟨key, (.noneV, .noneV), by rw [← hc1], hmiss⟩⟩
          · split
            · split
              · trivial
              · trivial
              · next d l _hids =>
                exact ⟨hn1, h1.1, le_trans h1.2 (Nat.le_succ _),
                  Or.inr ⟨key, (.strV d, .strV l), by rw [← hc1], hmiss⟩⟩
            · split
              · split
                · trivial
                · next wiv _hm =>
                  split
                  · have h2 := oclc_search_calls "wi" (.s (.strV wiv)) true
                      (oclc_search key.1 key.2 ex w).2
                    have hc2 := oclc_search_cache "wi" (.s (.strV wiv)) true
                      (oclc_search key.1 key.2 ex w).2
                    have hn2 := oclc_search_net "wi" (.s (.strV wiv)) true
                      (oclc_search key.1 key.2 ex w).2
                    split
                    · trivial
                    · split
                      · split
                        · trivial
                        · trivial
                        · next d l _hids =>
                          exact ⟨hn2.trans hn1, le_trans h1.1 h2.1,
                            le_trans h2.2 (Nat.add_le_add_right h1.2 1),
                            Or.inr ⟨key, (.strV d, .strV l), by rw [← hc1, ← hc2], hmiss⟩⟩
                      · exact ⟨hn2.trans hn1, le_trans h1.1 h2.1,
                          le_trans h2.2 (Nat.add_le_add_right h1.2 1),
                          Or.inr ⟨key, (.noneV, .noneV), by rw [← hc1, ← hc2], hmiss⟩⟩
                  · exact ⟨hn1, h1.1, le_trans h1.2 (Nat.le_succ _),
                      Or.inr ⟨key, (.noneV, .noneV), by rw [← hc1], hmiss⟩⟩
                · exact ⟨hn1, h1.1, le_trans h1.2 (Nat.le_succ _),
                    Or.inr ⟨key, (.noneV, .noneV), by rw [← hc1], hmiss⟩⟩
              · exact ⟨hn1, h1.1, le_trans h1.2 (Nat.le_succ _), Or.inl hc1⟩

/-- A cache binding present before a resolution is still present, unchanged,
after it: process_row never overwrites an existing entry. -/
theorem processRow_preserves_cache (row : Row) (cols : Columns) (sc : Option (List String))
    (ex : Bool) (w : World) (res : Option (Row × Bool)) (w' : World)
    (h : process_row row cols sc ex w = .ok (res, w')) (k : CacheKey) (e : CEntry)
    (hk : cacheFind w.cache k = some e) : cacheFind w'.cache k = some e := by
  have hev := processRow_evolves row cols sc ex w
  rw [h] at hev
  obtain ⟨-, -, -, hcache⟩ := hev
  rcases hcache with hsame | ⟨k1, v1, heq, hnone⟩
  · rw [hsame]; exact hk
  · rw [heq, cacheFind_cacheSet]
    split
    · next hkk => rw [hkk, hk] at hnone; cases hnone
    · exact hk

/-- Call counter bounds for one completed resolution: it never decreases and
grows by at most two. -/
theorem processRow_calls_le (row : Row) (cols : Columns) (sc : Option (List String))
    (ex : Bool) (w : World) (res : Option (Row × Bool)) (w' : World)
    (h : process_row row cols sc ex w = .ok (res, w')) :
    w.calls ≤ w'.calls ∧ w'.calls ≤ w.calls + 2 := by
  have hev := processRow_evolves row cols sc ex w
  rw [h] at hev
  exact ⟨hev.2.1, hev.2.2.1⟩

/-- The skip loop returns true when every inspected column is present in the
row and the accumulator is already set or some column holds a non-empty
value. -/
theorem skipLoop_true (row : Row) (cols : List String) (acc : Bool)
    (hall : ∀ c ∈ cols, ∃ v, rowGet row c = some v)
    (hsome : acc = true ∨ ∃ c ∈ cols, ∃ v, rowGet row c = some v ∧ rvalNonEmpty v = true) :
    skipLoop row cols acc = .ok true := by
  induction cols generalizing acc with
  | nil =>
    rcases hsome with h | ⟨c, hc, _⟩
    · rw [h]; rfl
    · cases hc
  | cons c rest ih =>
    obtain ⟨v, hv⟩ := hall c (by simp)
    rw [skipLoop, hv]
    refine ih (acc || rvalNonEmpty v)
      (fun c1 hc1 => hall c1 (List.mem_cons_of_mem _ hc1)) ?_
    rcases hsome with h | ⟨c1, hc1, v1, hv1, hne1⟩
    · left; rw [h]; rfl
    · rcases List.mem_cons.mp hc1 with rfl | hmem
      · left; rw [hv] at hv1; injection hv1 with hv1; rw [← hv1] at hne1
        rw [hne1, Bool.or_true]
      · right; exact ⟨c1, hmem, v1, hv1, hne1⟩

/-- Key selection result when ISBN data is present: the isbn key wins no
matter what the other checks produced. -/
theorem selectKey_isbn (row : Row) (c : Columns) (s1 : Option (String × SData)) (ih : Bool)
    (htc : titleChoice row c = .ok s1)
    (hissn : colHasData row c.issn = .ok ih)
    (hisbn : colHasData row c.isbn = .ok true) :
    selectKey row c = .ok (some ("isbn", .s (rowGetV row (c.isbn.getD "")))) := by
  simp [selectKey, htc, hissn, hisbn]

/-- Key selection result when ISBN data is absent and ISSN data is present:
the issn key overrides the title and bibliographic choices. -/
theorem selectKey_issn (row : Row) (c : Columns) (s1 : Option (String × SData))
    (htc : titleChoice row c = .ok s1)
    (hissn : colHasData row c.issn = .ok true)
    (hisbn : colHasData row c.isbn = .ok false) :
    selectKey row c = .ok (some ("issn", .s (rowGetV row (c.issn.getD "")))) := by
  simp [selectKey, htc, hissn, hisbn]

/-- Key selection result when neither ISBN nor ISSN data is present: the
title/author choice stands. -/
theorem selectKey_titleAuthor (row : Row) (c : Columns) (s1 : Option (String × SData))
    (htc : titleChoice row c = .ok s1)
    (hissn : colHasData row c.issn = .ok false)
    (hisbn : colHasData row c.isbn = .ok false) :
    selectKey row c = .ok s1 := by
  simp [selectKey, htc, hissn, hisbn]

/-! Claim theorems. -/

/-- C9: for every first-query status code that is an integer below 100 and
not one of 0, 2 or 4 (a value outside the documented status enumeration,
such as 1 or 3), process_row falls through all of its status branches and
returns the Python None value instead of a (record, query_made) pair, and in
particular does not treat the status as a failure outcome: no cache entry is
written. -/
theorem C9_undocumented_status_fallthrough (row : Row) (cols : Columns)
    (sc : Option (List String)) (ex : Bool) (w : World) (key : CacheKey) (n : Int)
    (hs : skipCheck row sc = .ok false)
    (hk : selectKey row cols = .ok (some key))
    (hc : cacheFind w.cache key = none)
    (hr : extract_response (oclc_search key.1 key.2 ex w).1 = .ok (some n))
    (hn : n < 100) (h0 : n ≠ 0) (h2 : n ≠ 2) (h4 : n ≠ 4) :
    process_row row cols sc ex w = .ok (none, (oclc_search key.1 key.2 ex w).2) ∧
      (oclc_search key.1 key.2 ex w).2.cache = w.cache :=
  ⟨processRow_fallthrough row cols sc ex w key n hs hk hc hr hn h0 h2 h4,
   oclc_search_cache key.1 key.2 ex w⟩

/-- C9 witness: the status-1 service makes process_row return the None value
with one call counted and an empty cache. -/
theorem C9_undocumented_status_fallthrough_witness :
    process_row rowIsbn555 demoColumns none true worldC9 =
        .ok (none, ⟨[], netStatusOne, 1⟩) ∧
      (⟨[], netStatusOne, 1⟩ : World).cache = ([] : Cache) :=
  C9_undocumented_status_fallthrough rowIsbn555 demoColumns none true worldC9
    ("isbn", .s (.strV "555")) 1 rfl rfl rfl rfl (by decide) (by decide) (by decide)
    (by decide)

/-- C5: for every (kind, value) key the cache is populated at most once in a
run — a binding, once present, survives every later resolution unchanged —
and every resolution whose selected key is already cached reads the cached
result into its record and performs no network call, leaving the world
untouched. -/
theorem C5_cache_populated_once :
    (∀ (row : Row) (cols : Columns) (sc : Option (List String)) (ex : Bool) (w : World)
        (res : Option (Row × Bool)) (w' : World) (k : CacheKey) (e : CEntry),
        process_row row cols sc ex w = .ok (res, w') →
        cacheFind w.cache k = some e → cacheFind w'.cache k = some e) ∧
    (∀ (row : Row) (cols : Columns) (sc : Option (List String)) (ex : Bool) (w : World)
        (k : CacheKey) (e : CEntry),
        skipCheck row sc = .ok false →
        selectKey row cols = .ok (some k) →
        cacheFind w.cache k = some e →
        process_row row cols sc ex w =
          .ok (some (rowSet (rowSet row "ddc" e.1) "lcc" e.2, false), w)) :=
  ⟨fun row cols sc ex w res w' k e h hk =>
      processRow_preserves_cache row cols sc ex w res w' h k e hk,
   fun row cols sc ex w k e hs hk hc => processRow_hit row cols sc ex w k e hs hk hc⟩

/-- C5 witness: a resolution of a different (issn) key preserves the cached
isbn binding, and a resolution of the cached isbn key returns the cached
values without touching the world. -/
theorem C5_cache_populated_once_witness :
    cacheFind
        (⟨(("issn", .s (.strV "1234-5678")), (.noneV, .noneV)) :: worldC5.cache,
          netFirstBad, 2⟩ : World).cache ("isbn", .s (.strV "9781")) =
      some (.strV "813", .strV "QA76") ∧
    process_row rowIsbn demoColumns none true worldC5 =
      .ok (some (rowSet (rowSet rowIsbn "ddc" (.strV "813")) "lcc" (.strV "QA76"),
                 false), worldC5) :=
  ⟨C5_cache_populated_once.1 rowIssn demoColumns none true worldC5
      (some (rowIssn, true))
      (⟨(("issn", .s (.strV "1234-5678")), (.noneV, .noneV)) :: worldC5.cache,
        netFirstBad, 2⟩ : World)
      ("isbn", .s (.strV "9781")) (.strV "813", .strV "QA76") rfl rfl,
   C5_cache_populated_once.2 rowIsbn demoColumns none true worldC5
      ("isbn", .s (.strV "9781")) (.strV "813", .strV "QA76") rfl rfl rfl⟩

/-- C7: whenever some field named in the non-empty skip list holds a
non-empty value (and the listed fields exist in the record), process_row
returns the input record itself, unchanged, with query_made false, and the
world — cache, oracle and call counter — is exactly the input world: no key
selection outcome, cache access or network call is observable. -/
theorem C7_skip_returns_unchanged (row : Row) (cols : Columns) (ex : Bool) (w : World)
    (scols : List String)
    (hne : scols ≠ [])
    (hall : ∀ c ∈ scols, ∃ v, rowGet row c = some v)
    (hsome : ∃ c ∈ scols, ∃ v, rowGet row c = some v ∧ rvalNonEmpty v = true) :
    process_row row cols (some scols) ex w = .ok (some (row, false), w) := by
  have hsk : skipCheck row (some scols) = .ok true := by
    cases scols with
    | nil => cases hne rfl
    | cons c rest => exact skipLoop_true row (c :: rest) false hall (Or.inr hsome)
  simp [process_row, hsk]

/-- C7 witness: a row with data in the configured done column is returned
unchanged with no query. -/
theorem C7_skip_returns_unchanged_witness :
    process_row rowSkip demoColumns (some ["done"]) true worldC1 =
      .ok (some (rowSkip, false), worldC1) :=
  C7_skip_returns_unchanged rowSkip demoColumns true worldC1 ["done"]
    (by decide)
    (fun c hc => by
      rw [List.mem_singleton] at hc
      exact ⟨.strV "x", by rw [hc]; rfl⟩)
    ⟨"done", by decide, .strV "x", rfl, rfl⟩

/-- C6: the key selector applies the preference order ISBN over ISSN over
title plus author (bibliographic pair) over title alone; a column configured
as not applicable is treated as absent; and when no key field is present and
non-empty no key is produced and process_row makes no query, leaving the
record and the world untouched. -/
theorem C6_key_preference :
    (∀ (row : Row) (c : Columns) (s1 : Option (String × SData)) (ih : Bool),
        titleChoice row c = .ok s1 → colHasData row c.issn = .ok ih →
        colHasData row c.isbn = .ok true →
        selectKey row c = .ok (some ("isbn", .s (rowGetV row (c.isbn.getD ""))))) ∧
    (∀ (row : Row) (c : Columns) (s1 : Option (String × SData)),
        titleChoice row c = .ok s1 → colHasData row c.issn = .ok true →
        colHasData row c.isbn = .ok false →
        selectKey row c = .ok (some ("issn", .s (rowGetV row (c.issn.getD ""))))) ∧
    (∀ (row : Row) (c : Columns),
        colHasData row c.title = .ok true → colHasData row c.author = .ok true →
        colHasData row c.issn = .ok false → colHasData row c.isbn = .ok false →
        selectKey row c =
          .ok (some ("bib", .pair (rowGetV row (c.title.getD ""))
                                  (rowGetV row (c.author.getD ""))))) ∧
    (∀ (row : Row) (c : Columns),
        colHasData row c.title = .ok true → colHasData row c.author = .ok false →
        colHasData row c.issn = .ok false → colHasData row c.isbn = .ok false →
        selectKey row c = .ok (some ("title", .s (rowGetV row (c.title.getD ""))))) ∧
    (∀ (row : Row) (c : Columns) (sc : Option (List String)) (ex : Bool) (w : World),
        skipCheck row sc = .ok false →
        colHasData row c.title = .ok false → colHasData row c.issn = .ok false →
        colHasData row c.isbn = .ok false →
        process_row row c sc ex w = .ok (some (row, false), w)) ∧
    (∀ row : Row, colHasData row none = .ok false) := by
  refine ⟨?_, ?_, ?_, ?_, ?_, ?_⟩
  · exact fun row c s1 ih htc hissn hisbn => selectKey_isbn row c s1 ih htc hissn hisbn
  · exact fun row c s1 htc hissn hisbn => selectKey_issn row c s1 htc hissn hisbn
  · intro row c ht ha hissn hisbn
    have htc : titleChoice row c =
        .ok (some ("bib", .pair (rowGetV row (c.title.getD ""))
                               (rowGetV row (c.author.getD "")))) := by
      simp [titleChoice, ht, ha]
    exact selectKey_titleAuthor row c _ htc hissn hisbn
  · intro row c ht ha hissn hisbn
    have htc : titleChoice row c =
        .ok (some ("title", .s (rowGetV row (c.title.getD "")))) := by
      simp [titleChoice, ht, ha]
    exact selectKey_titleAuthor row c _ htc hissn hisbn
  · intro row c sc ex w hs ht hissn hisbn
    have htc : titleChoice row c = .ok none := by simp [titleChoice, ht]
    have hsel : selectKey row c = .ok none := by
      simpa using selectKey_titleAuthor row c none htc hissn hisbn
    simp [process_row, hs, hsel]
  · intro row; rfl

/-- C6 witness: on the default column configuration the fully populated row
selects the isbn key, dropping the ISBN selects the issn key, dropping ISSN
too selects the bibliographic pair (title, author), dropping the author
selects the plain title key, and the empty row selects nothing and is
returned without a query. -/
theorem C6_key_preference_witness :
    selectKey rowAll demoColumns = .ok (some ("isbn", .s (.strV "9781"))) ∧
    selectKey rowNoIsbn demoColumns = .ok (some ("issn", .s (.strV "12"))) ∧
    selectKey rowBib demoColumns =
      .ok (some ("bib", .pair (.strV "T") (.strV "A"))) ∧
    selectKey rowTitle demoColumns = .ok (some ("title", .s (.strV "T"))) ∧
    process_row rowEmpty demoColumns none true worldC1 =
      .ok (some (rowEmpty, false), worldC1) :=
  ⟨C6_key_preference.1 rowAll demoColumns _ true rfl rfl rfl,
   C6_key_preference.2.1 rowNoIsbn demoColumns _ rfl rfl rfl,
   C6_key_preference.2.2.1 rowBib demoColumns rfl rfl rfl rfl,
   C6_key_preference.2.2.2.1 rowTitle demoColumns rfl rfl rfl rfl,
   C6_key_preference.2.2.2.2.1 rowEmpty demoColumns none true worldC1 rfl rfl rfl rfl⟩

/-- C8 counterexample: an HTTP non-200 response and a raised network error
produce the very same transport result — the Python None value — so the
empty-service-response outcome and the transport-failure outcome are not
mutually distinguishable by the caller, contrary to the claim. -/
theorem C8_counterexample :
    (oclc_search "isbn" (.s (.strV "9781")) true ⟨[], netNon200, 0⟩).1 = XmlData.xnone ∧
    (oclc_search "isbn" (.s (.strV "9781")) true ⟨[], netDown, 0⟩).1 = XmlData.xnone ∧
    httpResult (.response 404 (some treeSingle813)) = httpResult .netFail :=
  ⟨rfl, rfl, rfl⟩

/-- C8 amended: for every valid search, oclc_search returns the raw payload
of an HTTP 200 response and the single None sentinel for both an HTTP
non-200 response and a network error; an empty service response therefore
cannot be told apart from a transport failure (Python False is returned
earlier, without any network call, for invalid search input only). -/
theorem C8_transport_outcomes (st : String) (d : SData) (ex : Bool) (w : World)
    (url : String) (h : buildRequest st d ex = some url) :
    (oclc_search st d ex w).1 = httpResult (w.net url) ∧
    (∀ b, httpResult (.response 200 b) = .xstr b) ∧
    (∀ c b, c ≠ 200 → httpResult (.response c b) = .xnone) ∧
    httpResult .netFail = .xnone :=
  ⟨by simp [oclc_search, h], fun b => rfl,
   fun c b hc => by simp [httpResult, hc], rfl⟩

/-- C8 witness: the amended transport contract evaluated over the always-404
oracle at the isbn request. -/
theorem C8_transport_outcomes_witness :
    (oclc_search "isbn" (.s (.strV "9781")) true ⟨[], netNon200, 0⟩).1 =
        httpResult (netNon200 (urlFor "isbn=9781")) ∧
      (∀ b, httpResult (.response 200 b) = .xstr b) ∧
      (∀ c b, c ≠ 200 → httpResult (.response c b) = .xnone) ∧
      httpResult .netFail = .xnone :=
  C8_transport_outcomes "isbn" (.s (.strV "9781")) true ⟨[], netNon200, 0⟩
    (urlFor "isbn=9781") rfl

/-- C2 counterexample: a parseable payload whose response element has no
code attribute makes extract_response raise KeyError, and a parseable
status-4 payload with no listed work makes resolve_multiple raise
AttributeError — structurally unexpected payloads do propagate exceptions
out of the parser, contrary to the claim. -/
theorem C2_counterexample :
    extract_response (.xstr (some treeCodeless)) = .error .keyError ∧
    resolve_multiple (.xstr (some treeMultiNoWorks)) = .error .attributeError :=
  ⟨rfl, rfl⟩

/-- C2 amended: a payload that does not parse at all, or parses without any
response element, never raises — all three parser operations degrade to the
None result.  (A parseable payload can still raise: a response element
without an integer code attribute raises from extract_response and
extract_ids, and a status-4 payload whose work lookup fails raises from
resolve_multiple, as the counterexample shows.) -/
theorem C2_parser_degrades :
    (∀ p : XmlData, get_tree p = none →
        extract_response p = .ok none ∧ extract_ids p = .ok none ∧
          resolve_multiple p = .ok none) ∧
    (∀ (p : XmlData) (t : XElem), get_tree p = some t →
        findPath t ["response"] = none →
        extract_response p = .ok none ∧ extract_ids p = .ok none ∧
          resolve_multiple p = .ok none) := by
  constructor
  · intro p h
    exact ⟨by simp [extract_response, h], by simp [extract_ids, h],
           by simp [resolve_multiple, h]⟩
  · intro p t hp hr
    have he : extract_response p = .ok none := by simp [extract_response, hp, hr]
    have hee : extract_response (XmlData.xelem t) = .ok none := by
      simp [extract_response, get_tree, hr]
    refine ⟨he, ?_, ?_⟩
    · simp [extract_ids, hp, hee]
    · simp [resolve_multiple, hp, hee]

/-- C2 witness: the amended degradation evaluated at the None transport
result (unparseable) and at a parseable payload with no response element. -/
theorem C2_parser_degrades_witness :
    (extract_response XmlData.xnone = .ok none ∧
       extract_ids XmlData.xnone = .ok none ∧
       resolve_multiple XmlData.xnone = .ok none) ∧
    (extract_response (.xstr (some treeNoResponse)) = .ok none ∧
       extract_ids (.xstr (some treeNoResponse)) = .ok none ∧
       resolve_multiple (.xstr (some treeNoResponse)) = .ok none) :=
  ⟨C2_parser_degrades.1 XmlData.xnone rfl,
   C2_parser_degrades.2 (.xstr (some treeNoResponse)) treeNoResponse rfl rfl⟩

/-- C10 counterexample: on a parseable payload whose response element lacks
the code attribute, extract_ids propagates the KeyError of its internal
status re-check instead of returning the None value, so it is not a total
never-raising operation on out-of-spec payloads. -/
theorem C10_counterexample :
    extract_ids (.xstr (some treeCodeless)) = .error .keyError := rfl

/-- C10 amended: extract_ids re-parses the payload and re-checks the
response code, and returns the None value whenever the status extraction
yields no code (unparseable payload or missing response element) or yields
an integer code other than 0 and 2; it raises only when the status re-check
itself raises. -/
theorem C10_extract_ids_guard (p : XmlData)
    (h : extract_response p = .ok none ∨
         ∃ n, extract_response p = .ok (some n) ∧ n ≠ 0 ∧ n ≠ 2) :
    extract_ids p = .ok none := by
  cases hg : get_tree p with
  | none => simp [extract_ids, hg]
  | some t =>
    have he := extract_response_of_tree p t hg
    rcases h with h | ⟨n, h, hn0, hn2⟩
    · rw [he] at h
      simp [extract_ids, hg, h]
    · rw [he] at h
      simp [extract_ids, hg, h, hn0, hn2]

/-- C10 witness: the guard evaluated at the not-found payload (code 102). -/
theorem C10_extract_ids_guard_witness :
    extract_ids (.xstr (some treeNotFound)) = .ok none :=
  C10_extract_ids_guard (.xstr (some treeNotFound))
    (Or.inr ⟨102, rfl, by decide, by decide⟩)

/-- C4 counterexample: after a not-found (102) response the cache entry
under the issn key holds the Python None marker in both components — not
the empty string — and a later resolution with the same key, while indeed
making no network call, writes those None markers (null values) into the
record fields instead of empty strings. -/
theorem C4_counterexample :
    process_row rowIssn demoColumns none true worldC4 =
      .ok (some (rowIssn, true), worldC4After) ∧
    cacheFind worldC4After.cache ("issn", .s (.strV "1234-5678")) =
      some (.noneV, .noneV) ∧
    (RVal.noneV, RVal.noneV) ≠ (RVal.strV "", RVal.strV "") ∧
    process_row rowIssn demoColumns none true worldC4After =
      .ok (some (rowIssnNulls, false), worldC4After) ∧
    rowGet rowIssnNulls "ddc" = some RVal.noneV ∧
    RVal.noneV ≠ RVal.strV "" :=
  ⟨rfl, rfl, by decide, rfl, rfl, by decide⟩

/-- C4 amended: a resolution whose query fails (unparseable status or status
at least 100) stores the None marker — not the empty string — for both
components in the cache under the search key and returns the record with its
classification fields left unset; a later resolution with an equal key
performs no network call, returns query_made false, and writes those None
markers into the record fields. -/
theorem C4_failure_caches_none :
    (∀ (row : Row) (cols : Columns) (sc : Option (List String)) (ex : Bool)
        (w : World) (key : CacheKey),
        skipCheck row sc = .ok false → selectKey row cols = .ok (some key) →
        cacheFind w.cache key = none →
        (extract_response (oclc_search key.1 key.2 ex w).1 = .ok none ∨
          ∃ n, extract_response (oclc_search key.1 key.2 ex w).1 = .ok (some n) ∧
            n ≥ 100) →
        process_row row cols sc ex w =
          .ok (some (row, true),
            { (oclc_search key.1 key.2 ex w).2 with
              cache := cacheSet (oclc_search key.1 key.2 ex w).2.cache key
                         (.noneV, .noneV) })) ∧
    (∀ (row : Row) (cols : Columns) (sc : Option (List String)) (ex : Bool)
        (w : World) (key : CacheKey),
        skipCheck row sc = .ok false → selectKey row cols = .ok (some key) →
        cacheFind w.cache key = some (.noneV, .noneV) →
        process_row row cols sc ex w =
          .ok (some (rowSet (rowSet row "ddc" .noneV) "lcc" .noneV, false), w)) := by
  constructor
  · intro row cols sc ex w key hs hk hc h
    rcases h with h | ⟨n, h, hn⟩
    · exact processRow_statusNone row cols sc ex w key hs hk hc h
    · exact processRow_statusFail row cols sc ex w key n hs hk hc h hn
  · intro row cols sc ex w key hs hk hc
    exact processRow_hit row cols sc ex w key (.noneV, .noneV) hs hk hc

/-- C4 witness: the failure-caching behaviour evaluated over the not-found
oracle for the issn key, first on a fresh world, then on the world holding
the nil entry. -/
theorem C4_failure_caches_none_witness :
    process_row rowIssn demoColumns none true worldC4 =
      .ok (some (rowIssn, true),
        { (oclc_search "issn" (.s (.strV "1234-5678")) true worldC4).2 with
          cache := cacheSet
            (oclc_search "issn" (.s (.strV "1234-5678")) true worldC4).2.cache
            ("issn", .s (.strV "1234-5678")) (.noneV, .noneV) }) ∧
    process_row rowIssn demoColumns none true worldC4After =
      .ok (some (rowSet (rowSet rowIssn "ddc" .noneV) "lcc" .noneV, false),
        worldC4After) :=
  ⟨C4_failure_caches_none.1 rowIssn demoColumns none true worldC4
      ("issn", .s (.strV "1234-5678")) rfl rfl rfl (Or.inr ⟨102, rfl, by decide⟩),
   C4_failure_caches_none.2 rowIssn demoColumns none true worldC4After
      ("issn", .s (.strV "1234-5678")) rfl rfl rfl⟩

/-- C3 counterexample: resolving the isbn key twice over the multi-work
oracle: the first resolution (a status-4 response whose queried candidate
fails to resolve) already makes TWO network calls — more than the claimed
at-most-one total — and the second resolution returns a record extended with
None markers, not a record identical to the first resolution's output. -/
theorem C3_counterexample :
    process_row rowIsbn demoColumns none true worldC1 =
      .ok (some (rowIsbn, true), worldCacheNil) ∧
    worldCacheNil.calls = 2 ∧
    ¬ (worldCacheNil.calls ≤ 1) ∧
    process_row rowIsbn demoColumns none true worldCacheNil =
      .ok (some (rowIsbnNulls, false), worldCacheNil) ∧
    rowIsbnNulls ≠ rowIsbn :=
  ⟨rfl, rfl, by decide, rfl, by decide⟩

/-- C3 amended: resolving the same key twice in one run issues at most two
network calls in total, all of them in the first resolution; the second
resolution issues no network call, returns query_made false, and writes the
cached components into its record — identical to the values written by a
successful single-work first resolution, whose extraction result is exactly
what gets cached; after a failed first resolution (which leaves the fields
unset) the second writes the None markers instead. -/
theorem C3_second_resolution_cached :
    (∀ (row : Row) (cols : Columns) (sc : Option (List String)) (ex : Bool) (w : World)
        (res : Option (Row × Bool)) (w' : World),
        process_row row cols sc ex w = .ok (res, w') →
        w.calls ≤ w'.calls ∧ w'.calls ≤ w.calls + 2) ∧
    (∀ (row : Row) (cols : Columns) (sc : Option (List String)) (ex : Bool) (w : World)
        (key : CacheKey) (e : CEntry),
        skipCheck row sc = .ok false → selectKey row cols = .ok (some key) →
        cacheFind w.cache key = some e →
        process_row row cols sc ex w =
          .ok (some (rowSet (rowSet row "ddc" e.1) "lcc" e.2, false), w)) ∧
    (∀ (row : Row) (cols : Columns) (sc : Option (List String)) (ex : Bool) (w : World)
        (key : CacheKey) (n : Int) (d l : String),
        skipCheck row sc = .ok false → selectKey row cols = .ok (some key) →
        cacheFind w.cache key = none →
        extract_response (oclc_search key.1 key.2 ex w).1 = .ok (some n) →
        (n = 0 ∨ n = 2) →
        extract_ids (oclc_search key.1 key.2 ex w).1 = .ok (some (d, l)) →
        process_row row cols sc ex w =
          .ok (some (rowSet (rowSet row "ddc" (.strV d)) "lcc" (.strV l), true),
            { (oclc_search key.1 key.2 ex w).2 with
              cache := cacheSet (oclc_search key.1 key.2 ex w).2.cache key
                         (.strV d, .strV l) }) ∧
        cacheFind (cacheSet (oclc_search key.1 key.2 ex w).2.cache key
            (.strV d, .strV l)) key = some (.strV d, .strV l)) := by
  refine ⟨?_, ?_, ?_⟩
  · exact fun row cols sc ex w res w' h => processRow_calls_le row cols sc ex w res w' h
  · exact fun row cols sc ex w key e hs hk hc => processRow_hit row cols sc ex w key e hs hk hc
  · intro row cols sc ex w key n d l hs hk hc hr h02 hids
    exact ⟨processRow_single row cols sc ex w key n d l hs hk hc hr h02 hids,
           by simp [cacheFind_cacheSet]⟩

/-- C3 witness: the call bound over the two-call multi-work run, the cached
second resolution over the pre-populated world, and the single-work
first resolution that populates the cache with what it wrote. -/
theorem C3_second_resolution_cached_witness :
    (worldC1.calls ≤ worldCacheNil.calls ∧
       worldCacheNil.calls ≤ worldC1.calls + 2) ∧
    process_row rowIsbn demoColumns none true worldC5 =
      .ok (some (rowSet (rowSet rowIsbn "ddc" (.strV "813")) "lcc" (.strV "QA76"),
                 false), worldC5) ∧
    (process_row rowIsbnS demoColumns none true worldSingle =
        .ok (some (rowSet (rowSet rowIsbnS "ddc" (.strV "813")) "lcc" (.strV ""), true),
          { (oclc_search "isbn" (.s (.strV "9780135957059")) true worldSingle).2 with
            cache := cacheSet
              (oclc_search "isbn" (.s (.strV "9780135957059")) true worldSingle).2.cache
              ("isbn", .s (.strV "9780135957059")) (.strV "813", .strV "") })) ∧
      cacheFind (cacheSet
          (oclc_search "isbn" (.s (.strV "9780135957059")) true worldSingle).2.cache
          ("isbn", .s (.strV "9780135957059")) (.strV "813", .strV ""))
        ("isbn", .s (.strV "9780135957059")) = some (.strV "813", .strV "") :=
  ⟨C3_second_resolution_cached.1 rowIsbn demoColumns none true worldC1
      (some (rowIsbn, true)) worldCacheNil rfl,
   C3_second_resolution_cached.2.1 rowIsbn demoColumns none true worldC5
      ("isbn", .s (.strV "9781")) (.strV "813", .strV "QA76") rfl rfl rfl,
   C3_second_resolution_cached.2.2 rowIsbnS demoColumns none true worldSingle
      ("isbn", .s (.strV "9780135957059")) 2 "813" "" rfl rfl rfl rfl
      (Or.inr rfl) rfl⟩

/-- C1 counterexample: the service would answer the FIRST listed candidate
(work index 111) with a single-work payload carrying DDC 813 and no LCC, but
process_row queries the LAST listed candidate (222), whose answer is
not-found: no DDC is written into the record, the nil entry — not the DDC —
is cached, refuting the claim for payloads listing more than one candidate. -/
theorem C1_counterexample :
    netFirstBad (urlFor "wi=111") = .response 200 (some treeSingle813) ∧
    extract_ids (.xstr (some treeSingle813)) = .ok (some ("813", "")) ∧
    process_row rowIsbn demoColumns none true worldC1 =
      .ok (some (rowIsbn, true), worldCacheNil) ∧
    rowGet rowIsbn "ddc" = none ∧
    cacheFind worldCacheNil.cache ("isbn", .s (.strV "9781")) =
      some (.noneV, .noneV) :=
  ⟨rfl, rfl, rfl, rfl, rfl⟩

/-- C1 amended: for every resolution whose first query returns a status-4
multi-work payload, the engine reads the LAST listed candidate work index
(the position-0 path selects the last sibling under the Python 2.7 engine;
first and last coincide when exactly one candidate is listed, the shape the
maxRecs=1 query requests); when the follow-up query for that index returns a
single-work payload carrying a DDC value and no LCC value, resolve writes
the DDC into the ddc field and the empty string into the lcc field, stores
the result under the original search key — not the work-index key — and
returns query_made true after exactly two network calls. -/
theorem C1_multi_match_resolution (row : Row) (cols : Columns) (sc : Option (List String))
    (ex : Bool) (w : World) (key : CacheKey) (t wk : XElem) (wiv : String)
    (pst : Option Int) (d : String)
    (hs : skipCheck row sc = .ok false)
    (hk : selectKey row cols = .ok (some key))
    (hc : cacheFind w.cache key = none)
    (ht : get_tree (oclc_search key.1 key.2 ex w).1 = some t)
    (hr : extract_response (oclc_search key.1 key.2 ex w).1 = .ok (some 4))
    (hwk : work0Select t = some wk)
    (hwi : alookup wk.attrib "wi" = some wiv)
    (hne : wiv ≠ "")
    (hpr : extract_response
      (oclc_search "wi" (.s (.strV wiv)) true (oclc_search key.1 key.2 ex w).2).1 =
        .ok pst)
    (hp02 : pst = some 0 ∨ pst = some 2)
    (hpids : extract_ids
      (oclc_search "wi" (.s (.strV wiv)) true (oclc_search key.1 key.2 ex w).2).1 =
        .ok (some (d, ""))) :
    process_row row cols sc ex w =
      .ok (some (rowSet (rowSet row "ddc" (.strV d)) "lcc" (.strV ""), true),
        { (oclc_search "wi" (.s (.strV wiv)) true (oclc_search key.1 key.2 ex w).2).2 with
          cache := cacheSet
            (oclc_search "wi" (.s (.strV wiv)) true
              (oclc_search key.1 key.2 ex w).2).2.cache
            key (.strV d, .strV "") }) ∧
    cacheFind (cacheSet
        (oclc_search "wi" (.s (.strV wiv)) true
          (oclc_search key.1 key.2 ex w).2).2.cache
        key (.strV d, .strV "")) key = some (.strV d, .strV "") ∧
    (oclc_search "wi" (.s (.strV wiv)) true
      (oclc_search key.1 key.2 ex w).2).2.calls = w.calls + 2 := by
  have h4 : extract_response (XmlData.xelem t) = .ok (some 4) := by
    rw [← extract_response_of_tree _ t ht]; exact hr
  have hrm : resolve_multiple (oclc_search key.1 key.2 ex w).1 = .ok (some wiv) := by
    simp [resolve_multiple, ht, h4, hwk, hwi]
  refine ⟨processRow_multi row cols sc ex w key wiv pst d "" hs hk hc hr hrm hne hpr
      hp02 hpids, by simp [cacheFind_cacheSet], ?_⟩
  cases hb : buildRequest key.1 key.2 ex with
  | none =>
    rw [show (oclc_search key.1 key.2 ex w).1 = .xfalse from by simp [oclc_search, hb]] at hr
    simp [extract_response, get_tree] at hr
  | some url =>
    have h1 : (oclc_search key.1 key.2 ex w).2 = { w with calls := w.calls + 1 } := by
      simp [oclc_search, hb]
    rw [show (oclc_search "wi" (.s (.strV wiv)) true (oclc_search key.1 key.2 ex w).2).2 =
        { (oclc_search key.1 key.2 ex w).2 with
          calls := (oclc_search key.1 key.2 ex w).2.calls + 1 } from by
      simp [oclc_search, buildRequest]]
    rw [h1]

/-- C1 witness: over the oracle whose last candidate resolves, the
multi-work resolution writes ddc 813 and empty lcc, caches them under the
original isbn key and counts two calls. -/
theorem C1_multi_match_resolution_witness :
    process_row rowIsbn demoColumns none true worldC1W =
      .ok (some (rowSet (rowSet rowIsbn "ddc" (.strV "813")) "lcc" (.strV ""), true),
        ⟨[(("isbn", .s (.strV "9781")), (.strV "813", .strV ""))], netLastGood, 2⟩) ∧
    cacheFind [(("isbn", SData.s (RVal.strV "9781")), (RVal.strV "813", RVal.strV ""))]
      ("isbn", .s (.strV "9781")) = some (.strV "813", .strV "") ∧
    (⟨[(("isbn", .s (.strV "9781")), (.strV "813", .strV ""))], netLastGood, 2⟩ :
        World).calls = worldC1W.calls + 2 :=
  C1_multi_match_resolution rowIsbn demoColumns none true worldC1W
    ("isbn", .s (.strV "9781")) treeMulti2 (.mk "work" [("wi", "222")] []) "222"
    (some 2) "813" rfl rfl rfl rfl rfl rfl rfl (by decide) rfl (Or.inr rfl) rfl

end Subjectify
